import Mathlib

/-!
Shallow embedding of the two benchmark-visualization scripts
`cseq_benchmark/utils/cseq_benchmark_tabs.py` and
`csf_benchmark/utils/csf_benchmark_plot.py`.

Conventions of the embedding:
* A CSV row becomes a structure (`RankRow` for the rank/select tables,
  `CsfRow` for the compressed-static-function plots); a data frame is a
  `List` of rows.
* The file system is a map `String → Option (List row)`: `none` models
  `FileNotFoundError` of `pd.read_csv`, `some rows` a successfully parsed
  frame (so `rows = []` models an empty frame).
* Machine floats of pandas are embedded as exact rationals `ℚ`;
  `Series.round` (numpy round-half-to-even) becomes `roundHalfEven`.
* Python's `str` on integers becomes `pyStr` / `pyStrInt` (the decimal
  rendering), Python's `int.bit_length` becomes `bit_length`.
* Side effects are made explicit: printed lines and written files are
  collected in result structures, matplotlib series in `PlotState`.
-/

namespace BenchViz

/-- Python's decimal rendering `str(n)` of a nonnegative integer. -/
def pyStr (n : ℕ) : String :=
  if n = 0 then "0" else ((Nat.digits 10 n).reverse.map Nat.digitChar).asString

/-- Python's decimal rendering `str(i)` of an integer. -/
def pyStrInt (i : ℤ) : String :=
  if i < 0 then "-" ++ pyStr i.natAbs else pyStr i.toNat

/-- Python's `str.startswith`. -/
def pyStartsWith (s p : String) : Bool := p.toList.isPrefixOf s.toList

/-- Left-to-right scan of Python's `str.replace`, replacing every
non-overlapping occurrence of `pat`; `fuel` is the length of the scanned
suffix, so each step consumes at least one character. -/
def pyReplaceLoop (pat rep : List Char) : ℕ → List Char → List Char
  | _, [] => []
  | 0, s => s
  | fuel + 1, c :: rest =>
    if pat.isPrefixOf (c :: rest) then
      rep ++ pyReplaceLoop pat rep fuel (List.drop (pat.length - 1) rest)
    else c :: pyReplaceLoop pat rep fuel rest

/-- Python's `str.replace` for a nonempty pattern (the scripts only replace
the nonempty pattern " over ranks"; an empty pattern is mapped to the
identity here). -/
def pyReplace (s pat rep : String) : String :=
  if pat.toList = [] then s
  else (pyReplaceLoop pat.toList rep.toList s.toList.length s.toList).asString

/-- Round-half-to-even rounding of a rational to an integer: the embedding of
numpy/pandas `round` (used by `Series.round` in both scripts). -/
def roundHalfEven (x : ℚ) : ℤ :=
  let f := ⌊x⌋
  let r := x - (f : ℚ)
  if r < 1/2 then f
  else if 1/2 < r then f + 1
  else if f % 2 = 0 then f else f + 1

/-- Python's `int.bit_length` (for a negative argument Python uses the
absolute value). -/
def bit_length (i : ℤ) : ℕ := Nat.size i.natAbs

/-- A parameter value of the `params` dicts of the scripts: the source passes
strings (e.g. `'uniform'`) and integers (e.g. `1000000000`). -/
inductive PVal where
  | s (v : String)
  | i (v : ℤ)
deriving DecidableEq, Repr

/-- Python's `str` applied to a parameter value, as used by `f'_{v}'` and
`f' {f}={v}'`. -/
def pyValStr : PVal → String
  | .s v => v
  | .i v => pyStrInt v

/-- `get_data` (identical in both scripts up to the directory and separator,
which are absorbed into the file-system map `fs`): try to read the frame,
report a missing file on stderr and an empty frame on stdout, returning
`none` in both cases.  Result: (frame-or-none, stdout lines, stderr lines). -/
def get_data {α : Type} (fs : String → Option (List α)) (filename : String) :
    Option (List α) × List String × List String :=
  match fs filename with
  | none => (none, [], [filename ++ ".csv not found and thus skipped"])
  | some rows =>
    if rows.isEmpty then (none, ["no data " ++ filename ++ ".csv"], [])
    else (some rows, [], [])

/-! ### cseq_benchmark_tabs.py -/

/-- `exp_str` of cseq_benchmark_tabs.py:
`f'10<sup>{len(str(n))-1}</sup>'`. -/
def exp_str (n : ℤ) : String :=
  "10<sup>" ++ pyStrInt (((pyStrInt n).length : ℤ) - 1) ++ "</sup>"

/-- `process_alg_name` of cseq_benchmark_tabs.py. -/
def process_alg_name (n : String) : String :=
  let n := pyReplace n " over ranks" ""
  if pyStartsWith n "bitm" || pyStartsWith n "succinct" || pyStartsWith n "sucds"
      || pyStartsWith n "vers" then n ++ "*" else n

/-- A row of the rank/select benchmark CSV files read by gen_tab. -/
structure RankRow where
  method : String
  distribution : String
  num : ℤ
  «universe» : ℤ
  space_overhead : ℚ
  time_per_query : ℚ
deriving DecidableEq, Repr

/-- Column access `d[f]` on a rank/select row, for the columns the source
filters on (`params` only ever uses `distribution` and `universe`). -/
def rankField (r : RankRow) (f : String) : Option PVal :=
  if f = "method" then some (.s r.method)
  else if f = "distribution" then some (.s r.distribution)
  else if f = "num" then some (.i r.num)
  else if f = "universe" then some (.i r.«universe»)
  else none

/-- The `for f, v in params.items()` loop of gen_tab: interleaves the filter
`d = d[d[f] == v]` with the name building `out_filename += f'_{v}'`. -/
def filterParams (rows : List RankRow) (name : String) :
    List (String × PVal) → List RankRow × String
  | [] => (rows, name)
  | (f, v) :: rest =>
      filterParams (rows.filter (fun r => rankField r f == some v))
        (name ++ "_" ++ pyValStr v) rest

/-- Line 40 of gen_tab: `if filename.startswith('select'):
d["method"] = d["method"].apply(process_alg_name)` — the in-place rewrite of
the method column. -/
def methodStep (filename : String) (r : RankRow) : RankRow :=
  if pyStartsWith filename "select" then { r with method := process_alg_name r.method }
  else r

/-- A frame row after lines 40–43 of gen_tab: the (possibly rewritten)
original columns together with the three derived columns
`percent of ones`, `space overhead [%]` and `time / query [ns]`. -/
structure TRow where
  orig : RankRow
  percent_of_ones : ℤ
  space_overhead_pct : ℚ
  time_per_query_ns : ℤ
deriving DecidableEq, Repr

/-- Lines 40–43 of gen_tab applied to one row: rewrite the method column when
the base filename starts with "select", then derive
`percent of ones = (num*100/universe).round(0).astype(int)`,
`space overhead [%] = space_overhead.round(1)` and
`time / query [ns] = time_per_query.round(0).astype(int)`. -/
def transformRow (filename : String) (r : RankRow) : TRow :=
  let r := methodStep filename r
  { orig := r
    percent_of_ones := roundHalfEven ((r.num * 100 : ℚ) / (r.«universe» : ℚ))
    space_overhead_pct := (roundHalfEven (r.space_overhead * 10) : ℚ) / 10
    time_per_query_ns := roundHalfEven r.time_per_query }

/-- Modelled from the spec: the pivoted, styled HTML table that gen_tab emits
(pandas `pivot_table`/`to_html` plus the BeautifulSoup restyling are wrapped
general-purpose libraries whose code is not part of this repository; per the
spec the output is "HTML files with pivoted, styled tables", with the
bit-vector-length column level relabelled by `exp_str`). -/
def renderHtmlTable (rows : List TRow) : String :=
  "<table style=\"text-align: center;\">"
    ++ String.intercalate ""
      (rows.map (fun r =>
        "<tr><th>" ++ r.orig.method ++ "</th><th>" ++ exp_str r.orig.«universe»
          ++ "</th><td>" ++ pyStrInt r.percent_of_ones ++ "</td><td>"
          ++ pyStrInt r.time_per_query_ns ++ "</td></tr>"))
    ++ "</table>"

/-- The observable effects of one gen_tab call: files written (name,
content), stdout lines, stderr lines. -/
structure GenTabEffect where
  writes : List (String × String)
  stdout : List String
  stderrLines : List String
deriving DecidableEq, Repr

/-- `gen_tab` of cseq_benchmark_tabs.py. -/
def gen_tab (fs : String → Option (List RankRow)) (filename : String)
    (params : List (String × PVal)) (filt : Option (TRow → Bool)) : GenTabEffect :=
  match get_data fs filename with
  | (none, out, err) => ⟨[], out, err⟩
  | (some rows, out, err) =>
    let fp := filterParams rows filename params
    let out_filename := fp.2 ++ ".html"
    if fp.1.isEmpty then
      ⟨[], out ++ ["cannot construct " ++ out_filename ++ ", no needed data in "
        ++ filename ++ ".csv"], err⟩
    else
      let trows := fp.1.map (transformRow filename)
      let trows := match filt with
        | none => trows
        | some p => trows.filter p
      ⟨[(out_filename, renderHtmlTable trows)], out, err⟩

/-! ### csf_benchmark_plot.py -/

/-- `UNCOMPRESSED_LABEL` of csf_benchmark_plot.py. -/
def UNCOMPRESSED_LABEL : String := "(uncompressed) vector of values"

/-- A row of the compressed-static-function benchmark CSV files read by
add_to_entropy_plot. -/
structure CsfRow where
  input_len : ℤ
  different_values : ℤ
  entropy : ℚ
  bits_per_entry : ℚ
  bits_per_seed : ℤ
deriving DecidableEq, Repr

/-- Column access `d[f]` on a csf row, for the columns the source filters on
(`params` only ever uses the integer column `bits/seed`). -/
def csfField (r : CsfRow) (f : String) : Option PVal :=
  if f = "input_len" then some (.i r.input_len)
  else if f = "different_values" then some (.i r.different_values)
  else if f = "bits/seed" then some (.i r.bits_per_seed)
  else none

/-- The `for f, v in params.items()` loop of add_to_entropy_plot: interleaves
the filter `d = d[d[f] == v]` with the label building
`label += f' {f}={v}'`. -/
def filterParamsCsf (rows : List CsfRow) (label : String) :
    List (String × PVal) → List CsfRow × String
  | [] => (rows, label)
  | (f, v) :: rest =>
      filterParamsCsf (rows.filter (fun r => csfField r f == some v))
        (label ++ " " ++ f ++ "=" ++ pyValStr v) rest

/-- The per-row value of the method column that add_to_entropy_plot assigns
to `d[label]`: `bits/entry - entropy`, or
`100 * (bits/entry - entropy) / entropy` when `as_percent`. -/
def overheadValue (asPercent : Bool) (r : CsfRow) : ℚ :=
  if asPercent then 100 * (r.bits_per_entry - r.entropy) / r.entropy
  else r.bits_per_entry - r.entropy

/-- The per-row value of the `UNCOMPRESSED_LABEL` column:
`int(row.different_values - 1).bit_length() - row.entropy`, then
`100 * . / entropy` when `as_percent`. -/
def baselineValue (asPercent : Bool) (r : CsfRow) : ℚ :=
  let v : ℚ := (bit_length (r.different_values - 1) : ℚ) - r.entropy
  if asPercent then 100 * v / r.entropy else v

/-- Minimum of a list of rationals (total; the scripts only take minima of
groups, which are nonempty by construction). -/
def listMinQ : List ℚ → ℚ
  | [] => 0
  | x :: xs => xs.foldl min x

/-- The distinct entropy values of a frame (the group keys of
`d.groupby(['entropy'])`). -/
def entropyKeys (rows : List CsfRow) : List ℚ := (rows.map (·.entropy)).dedup

/-- `d.groupby(['entropy'])[col].min()`: for each distinct entropy value, the
minimum of the column `val` over the rows sharing that entropy. -/
def groupMinBy (rows : List CsfRow) (val : CsfRow → ℚ) : List (ℚ × ℚ) :=
  (entropyKeys rows).map
    (fun e => (e, listMinQ ((rows.filter (fun r => r.entropy == e)).map val)))

/-- One plotted curve: its legend label, matplotlib style argument (the
baseline passes `'k--'`), and its entropy → value points. -/
structure Series where
  label : String
  style : Option String
  points : List (ℚ × ℚ)
deriving DecidableEq, Repr

/-- The matplotlib figure state threaded through add_to_entropy_plot calls:
the `conf` dict entry `uncompressed_plot` and the curves added so far. -/
structure PlotState where
  uncompressed_plot : Bool
  series : List Series
deriving DecidableEq, Repr

/-- A frame row of add_to_entropy_plot after the column assignments: the
original columns, the `UNCOMPRESSED_LABEL` column (assigned only when
`conf['uncompressed_plot']` is set) and the `d[label]` column. -/
structure CsfTRow where
  orig : CsfRow
  uncompressed : Option ℚ
  labelVal : ℚ
deriving DecidableEq, Repr

/-- The column assignments of add_to_entropy_plot on one row. -/
def csfTransformRow (uncomp : Bool) (asPercent : Bool) (r : CsfRow) : CsfTRow :=
  { orig := r
    uncompressed := if uncomp then some (baselineValue asPercent r) else none
    labelVal := overheadValue asPercent r }

/-- `add_to_entropy_plot` of csf_benchmark_plot.py: read the frame (skip on
missing/empty file), filter by `params` while extending the label, draw the
dashed uncompressed baseline once when `conf['uncompressed_plot']` is set
(then clear the flag), and draw the per-method minimum-overhead curve. -/
def add_to_entropy_plot (fs : String → Option (List CsfRow)) (filename : String)
    (asPercent : Bool) (labelOpt : Option String) (params : List (String × PVal))
    (st : PlotState) : PlotState :=
  match (get_data fs filename).1 with
  | none => st
  | some rows =>
    let fp := filterParamsCsf rows (labelOpt.getD filename) params
    let st :=
      if st.uncompressed_plot then
        { uncompressed_plot := false
          series := st.series
            ++ [⟨UNCOMPRESSED_LABEL, some "k--",
                groupMinBy fp.1 (baselineValue asPercent)⟩] }
      else st
    { st with series := st.series
        ++ [⟨fp.2, none, groupMinBy fp.1 (overheadValue asPercent)⟩] }

/-- The arguments of one add_to_entropy_plot call (as issued by
show_entropy_plot). -/
structure EntropyCallArgs where
  filename : String
  asPercent : Bool
  label : Option String
  params : List (String × PVal)

/-- A sequence of add_to_entropy_plot calls sharing one figure and one `conf`
dict, as in show_entropy_plot. -/
def runEntropyCalls (fs : String → Option (List CsfRow)) :
    List EntropyCallArgs → PlotState → PlotState
  | [], st => st
  | a :: rest, st =>
      runEntropyCalls fs rest
        (add_to_entropy_plot fs a.filename a.asPercent a.label a.params st)

/-- The number of dashed (`'k--'`) uncompressed-baseline curves in a figure. -/
def baselineCount (st : PlotState) : ℕ :=
  (st.series.filter (fun s => s.style == some "k--")).length

/-! ### Specification-side formulations (for refinement-style claims) -/

/-- The specification's formulation of `process_alg_name`: every occurrence
of " over ranks" removed, and "*" appended if and only if the resulting
string starts with one of "bitm", "succinct", "sucds", "vers". -/
def processAlgNameSpec (n : String) : String :=
  let m := pyReplace n " over ranks" ""
  if ["bitm", "succinct", "sucds", "vers"].any (fun p => pyStartsWith m p)
  then m ++ "*" else m

/-- The specification's formulation of gen_tab's output file name: the input
base name followed by one `_{value}` segment per entry of `params` in
iteration order, then the suffix ".html". -/
def outFilenameSpec (filename : String) (params : List (String × PVal)) : String :=
  (params.foldl (fun a p => a ++ "_" ++ pyValStr p.2) filename) ++ ".html"

/-! ### Concrete sample data (used by the witnesses) -/

/-- A concrete rank/select benchmark row. -/
def sampleRankRow : RankRow :=
  { method := "bitm", distribution := "uniform", num := 50, «universe» := 100
    space_overhead := 3/2, time_per_query := 7/2 }

/-- A concrete csf benchmark row. -/
def sampleCsfRow : CsfRow :=
  { input_len := 1000, different_values := 4, entropy := 3/2
    bits_per_entry := 2, bits_per_seed := 1 }

/-- A file system on which every read raises `FileNotFoundError`. -/
def fsMissingFrame : String → Option (List RankRow) := fun _ => none

/-- A file system on which every read yields an empty frame. -/
def fsEmptyFrame : String → Option (List RankRow) := fun _ => some []

/-- A file system holding one rank/select row under every name. -/
def fsSampleRank : String → Option (List RankRow) := fun _ => some [sampleRankRow]

/-- A second file system agreeing with `fsSampleRank` on "rank" only. -/
def fsSampleRank2 : String → Option (List RankRow) :=
  fun s => if s = "rank" then some [sampleRankRow] else none

/-- A file system holding one csf row under every name. -/
def fsSampleCsf : String → Option (List CsfRow) := fun _ => some [sampleCsfRow]

/-- The `conf` dict `show_entropy_plot` starts each figure with. -/
def initialConf : PlotState := { uncompressed_plot := true, series := [] }

/-- One concrete add_to_entropy_plot call. -/
def sampleEntropyCall : EntropyCallArgs :=
  { filename := "cfp", asPercent := false, label := none, params := [] }

/-! ## Helper lemmas -/

theorem foldl_min_le_init (xs : List ℚ) (a : ℚ) : xs.foldl min a ≤ a := by
  induction xs generalizing a with
  | nil => exact le_refl a
  | cons x t ih => exact le_trans (ih (min a x)) (min_le_left a x)

theorem foldl_min_le_mem (xs : List ℚ) (a x : ℚ) (hx : x ∈ xs) :
    xs.foldl min a ≤ x := by
  induction xs generalizing a with
  | nil => cases hx
  | cons y t ih =>
    rcases List.mem_cons.1 hx with h | h
    · subst h
      exact le_trans (foldl_min_le_init t (min a x)) (min_le_right a x)
    · exact ih (min a y) h

theorem foldl_min_mem (xs : List ℚ) (a : ℚ) :
    xs.foldl min a = a ∨ xs.foldl min a ∈ xs := by
  induction xs generalizing a with
  | nil => exact Or.inl rfl
  | cons x t ih =>
    rcases ih (min a x) with h | h
    · rcases min_cases a x with ⟨hm, _⟩ | ⟨hm, _⟩
      · exact Or.inl (by rw [List.foldl_cons, h, hm])
      · exact Or.inr (by rw [List.foldl_cons, h, hm]; exact List.mem_cons_self x t)
    · exact Or.inr (List.mem_cons_of_mem x h)

theorem listMinQ_le {xs : List ℚ} {x : ℚ} (hx : x ∈ xs) : listMinQ xs ≤ x := by
  cases xs with
  | nil => cases hx
  | cons y t =>
    rcases List.mem_cons.1 hx with h | h
    · subst h; exact foldl_min_le_init t x
    · exact foldl_min_le_mem t y x h

theorem listMinQ_mem {xs : List ℚ} (h : xs ≠ []) : listMinQ xs ∈ xs := by
  cases xs with
  | nil => exact absurd rfl h
  | cons y t =>
    rcases foldl_min_mem t y with h' | h'
    · rw [listMinQ, h']; exact List.mem_cons_self y t
    · exact List.mem_cons_of_mem y h'

/-- The characterization of one group of `d.groupby(['entropy'])[col].min()`:
each distinct entropy value is mapped to a value that is a lower bound of the
column over its group and is attained by some row of the group. -/
theorem groupMinBy_spec (rows : List CsfRow) (val : CsfRow → ℚ) (e : ℚ)
    (he : e ∈ entropyKeys rows) :
    ∃ v, (e, v) ∈ groupMinBy rows val
      ∧ (∀ r ∈ rows, r.entropy = e → v ≤ val r)
      ∧ ∃ r ∈ rows, r.entropy = e ∧ v = val r := by
  refine ⟨listMinQ ((rows.filter (fun r => r.entropy == e)).map val), ?_, ?_, ?_⟩
  · exact List.mem_map.2 ⟨e, he, rfl⟩
  · intro r hr hre
    exact listMinQ_le (List.mem_map.2 ⟨r, List.mem_filter.2 ⟨hr, by simp [hre]⟩, rfl⟩)
  · have hne : (rows.filter (fun r => r.entropy == e)).map val ≠ [] := by
      have : ∃ r ∈ rows, r.entropy = e := by
        have := List.mem_dedup.1 he
        rcases List.mem_map.1 this with ⟨r, hr, hre⟩
        exact ⟨r, hr, hre⟩
      rcases this with ⟨r, hr, hre⟩
      have : val r ∈ (rows.filter (fun r => r.entropy == e)).map val :=
        List.mem_map.2 ⟨r, List.mem_filter.2 ⟨hr, by simp [hre]⟩, rfl⟩
      exact List.ne_nil_of_mem this
    rcases List.mem_map.1 (listMinQ_mem hne) with ⟨r, hr, hrv⟩
    have := List.mem_filter.1 hr
    exact ⟨r, this.1, by simpa using this.2, hrv.symm⟩

/-- `roundHalfEven` is a nearest integer: it differs from its argument by at
most one half. -/
theorem roundHalfEven_near (x : ℚ) : |x - (roundHalfEven x : ℚ)| ≤ 1/2 := by
  have h0 : (⌊x⌋ : ℚ) ≤ x := Int.floor_le x
  have h1 : x < (⌊x⌋ : ℚ) + 1 := Int.lt_floor_add_one x
  simp only [roundHalfEven]
  split_ifs with ha hb hc
  · rw [abs_le]; constructor <;> linarith
  · rw [abs_le]; push_cast; constructor <;> linarith
  · rw [abs_le]; constructor <;> linarith
  · rw [abs_le]; push_cast; constructor <;> linarith

/-- `roundHalfEven` resolves exact ties to the even integer. -/
theorem roundHalfEven_tie_even (x : ℚ) (h : x - ((⌊x⌋ : ℤ) : ℚ) = 1/2) :
    Even (roundHalfEven x) := by
  simp only [roundHalfEven]
  split_ifs with ha hb hc
  · rw [h] at ha; exact absurd ha (lt_irrefl _)
  · rw [h] at hb; exact absurd hb (lt_irrefl _)
  · exact Int.even_iff.2 hc
  · rw [Int.even_iff]; omega

theorem length_asString (l : List Char) : (List.asString l).length = l.length := rfl

/-- The decimal rendering of a positive natural has `log10 + 1` characters. -/
theorem pyStr_length {n : ℕ} (h : n ≠ 0) : (pyStr n).length = Nat.log 10 n + 1 := by
  rw [pyStr, if_neg h, length_asString, List.length_map, List.length_reverse]
  exact Nat.digits_len 10 n (by norm_num) h

theorem pyStrInt_natCast (n : ℕ) : pyStrInt (n : ℤ) = pyStr n := by
  rw [pyStrInt, if_neg (not_lt.2 (Int.natCast_nonneg n))]
  norm_num

/-- The name built by the `params` loop of gen_tab is the left fold of the
`_{value}` segments over the base name. -/
theorem filterParams_name (params : List (String × PVal)) (rows : List RankRow)
    (name : String) :
    (filterParams rows name params).2
      = params.foldl (fun a p => a ++ "_" ++ pyValStr p.2) name := by
  induction params generalizing rows name with
  | nil => rfl
  | cons p rest ih =>
    rcases p with ⟨f, v⟩
    exact ih _ _

/-- One add_to_entropy_plot call preserves the number of drawn baselines plus
the pending `uncompressed_plot` flag. -/
theorem addEntropy_baseline_invariant (fs : String → Option (List CsfRow))
    (filename : String) (asPercent : Bool) (labelOpt : Option String)
    (params : List (String × PVal)) (st : PlotState) :
    baselineCount (add_to_entropy_plot fs filename asPercent labelOpt params st)
      + (if (add_to_entropy_plot fs filename asPercent labelOpt params st).uncompressed_plot
          then 1 else 0)
    = baselineCount st + (if st.uncompressed_plot then 1 else 0) := by
  cases h : (get_data fs filename).1 with
  | none => simp [add_to_entropy_plot, h]
  | some rows =>
    cases hf : st.uncompressed_plot <;>
      simp [add_to_entropy_plot, h, hf, baselineCount, List.filter_append]

/-- A whole sequence of add_to_entropy_plot calls preserves the number of
drawn baselines plus the pending flag. -/
theorem runEntropyCalls_baseline_invariant (fs : String → Option (List CsfRow))
    (calls : List EntropyCallArgs) (st : PlotState) :
    baselineCount (runEntropyCalls fs calls st)
      + (if (runEntropyCalls fs calls st).uncompressed_plot then 1 else 0)
    = baselineCount st + (if st.uncompressed_plot then 1 else 0) := by
  induction calls generalizing st with
  | nil => rfl
  | cons a rest ih =>
    rw [runEntropyCalls, ih]
    exact addEntropy_baseline_invariant fs a.filename a.asPercent a.label a.params st

/-! ## Claim theorems -/

/-- C2: in add_to_entropy_plot, the space overhead computed for the
per-method series (the `d[label]` column) equals bits/entry minus entropy
when as_percent is false, and 100 * (bits/entry - entropy) / entropy when
as_percent is true (precondition: nonzero entropy). -/
theorem C2_overhead_per_row (asPercent : Bool) (r : CsfRow) :
    (asPercent = false → overheadValue asPercent r = r.bits_per_entry - r.entropy)
    ∧ (asPercent = true → r.entropy ≠ 0 →
        overheadValue asPercent r = 100 * (r.bits_per_entry - r.entropy) / r.entropy)
    ∧ (∀ uncomp : Bool,
        (csfTransformRow uncomp asPercent r).labelVal = overheadValue asPercent r) := by
  refine ⟨?_, ?_, ?_⟩
  · intro h; subst h; simp [overheadValue]
  · intro h _; subst h; simp [overheadValue]
  · intro _; rfl

/-- Witness for C2 at a concrete row with entropy 3/2 ≠ 0. -/
theorem C2_overhead_per_row_witness :
    overheadValue false sampleCsfRow = sampleCsfRow.bits_per_entry - sampleCsfRow.entropy
    ∧ overheadValue true sampleCsfRow
        = 100 * (sampleCsfRow.bits_per_entry - sampleCsfRow.entropy) / sampleCsfRow.entropy :=
  ⟨(C2_overhead_per_row false sampleCsfRow).1 rfl,
   (C2_overhead_per_row true sampleCsfRow).2.1 rfl (by norm_num [sampleCsfRow])⟩

/-- C10: process_alg_name removes every occurrence of " over ranks" and
appends "*" if and only if the resulting string starts with "bitm",
"succinct", "sucds" or "vers"; gen_tab rewrites the method column exactly
when the table's base filename starts with "select". -/
theorem C10_process_alg_name_spec :
    (∀ n, process_alg_name n = processAlgNameSpec n)
    ∧ (∀ filename r, (methodStep filename r).method =
        if pyStartsWith filename "select" then process_alg_name r.method else r.method)
    ∧ (∀ filename r, pyStartsWith filename "select" = false → methodStep filename r = r) := by
  refine ⟨?_, ?_, ?_⟩
  · intro n
    simp only [process_alg_name, processAlgNameSpec, List.any_cons, List.any_nil,
      Bool.or_false, Bool.or_assoc]
  · intro filename r
    cases h : pyStartsWith filename "select" <;> simp [methodStep, h]
  · intro filename r h
    simp [methodStep, h]

/-- C5 as stated fails on the code: for a select table, gen_tab overwrites
the method field of a loaded row in the frame ("bitm" becomes "bitm*"), so
rows are not immutable after loading. -/
theorem C5_counterexample :
    (transformRow "select1" sampleRankRow).orig ≠ sampleRankRow := by decide

/-- C5 amended: every loaded field except gen_tab's method column is
preserved by the scripts' transformations; the method field is rewritten by
process_alg_name exactly when the base filename starts with "select", and
add_to_entropy_plot only adds derived columns, never altering loaded
fields. -/
theorem C5_rows_immutable_except_method (filename : String) (r : RankRow)
    (uncomp asPercent : Bool) (c : CsfRow) :
    ((transformRow filename r).orig.distribution = r.distribution
      ∧ (transformRow filename r).orig.num = r.num
      ∧ (transformRow filename r).orig.«universe» = r.«universe»
      ∧ (transformRow filename r).orig.space_overhead = r.space_overhead
      ∧ (transformRow filename r).orig.time_per_query = r.time_per_query)
    ∧ (transformRow filename r).orig.method
        = (if pyStartsWith filename "select" then process_alg_name r.method else r.method)
    ∧ (pyStartsWith filename "select" = false → (transformRow filename r).orig = r)
    ∧ (csfTransformRow uncomp asPercent c).orig = c := by
  cases h : pyStartsWith filename "select" <;>
    simp [transformRow, methodStep, csfTransformRow, h]

/-- Witness for C5's amended statement at a non-select table. -/
theorem C5_rows_immutable_except_method_witness :
    ((transformRow "rank" sampleRankRow).orig.distribution = sampleRankRow.distribution
      ∧ (transformRow "rank" sampleRankRow).orig.num = sampleRankRow.num
      ∧ (transformRow "rank" sampleRankRow).orig.«universe» = sampleRankRow.«universe»
      ∧ (transformRow "rank" sampleRankRow).orig.space_overhead = sampleRankRow.space_overhead
      ∧ (transformRow "rank" sampleRankRow).orig.time_per_query = sampleRankRow.time_per_query)
    ∧ (transformRow "rank" sampleRankRow).orig.method
        = (if pyStartsWith "rank" "select" then process_alg_name sampleRankRow.method
            else sampleRankRow.method)
    ∧ (pyStartsWith "rank" "select" = false →
        (transformRow "rank" sampleRankRow).orig = sampleRankRow)
    ∧ (csfTransformRow false false sampleCsfRow).orig = sampleCsfRow :=
  C5_rows_immutable_except_method "rank" sampleRankRow false false sampleCsfRow

/-- C1: a missing CSV file is reported on stderr with a message naming the
file and None is returned; an existing file with an empty frame produces a
stdout diagnostic and None; and in gen_tab an empty params-filtered frame
produces a stdout diagnostic and an early return with no file written. -/
theorem C1_error_handling {α : Type} (fs : String → Option (List α))
    (fsr : String → Option (List RankRow)) (filename : String)
    (params : List (String × PVal)) (filt : Option (TRow → Bool))
    (rows : List RankRow) :
    (fs filename = none →
      get_data fs filename
        = (none, [], [filename ++ ".csv not found and thus skipped"]))
    ∧ (fs filename = some [] →
      get_data fs filename = (none, ["no data " ++ filename ++ ".csv"], []))
    ∧ (fsr filename = some rows → rows ≠ [] →
        (filterParams rows filename params).1 = [] →
        gen_tab fsr filename params filt
          = ⟨[], ["cannot construct " ++ outFilenameSpec filename params
              ++ ", no needed data in " ++ filename ++ ".csv"], []⟩) := by
  refine ⟨?_, ?_, ?_⟩
  · intro h; simp [get_data, h]
  · intro h; simp [get_data, h]
  · intro h1 h2 h3
    have h4 : rows.isEmpty = false := by
      cases rows with
      | nil => exact absurd rfl h2
      | cons a t => rfl
    have hg : get_data fsr filename = (some rows, [], []) := by
      simp [get_data, h1, h4]
    simp [gen_tab, hg, h3, outFilenameSpec, filterParams_name]

/-- Witness for C1: a missing file, an empty frame, and a params filter that
matches no row. -/
theorem C1_error_handling_witness :
    get_data fsMissingFrame "rank"
      = (none, [], ["rank" ++ ".csv not found and thus skipped"])
    ∧ get_data fsEmptyFrame "rank" = (none, ["no data " ++ "rank" ++ ".csv"], [])
    ∧ gen_tab fsSampleRank "rank" [("distribution", PVal.s "adversarial")] none
        = ⟨[], ["cannot construct "
            ++ outFilenameSpec "rank" [("distribution", PVal.s "adversarial")]
            ++ ", no needed data in " ++ "rank" ++ ".csv"], []⟩ :=
  ⟨(C1_error_handling fsMissingFrame fsSampleRank "rank" [] none []).1 rfl,
   (C1_error_handling fsEmptyFrame fsSampleRank "rank" [] none []).2.1 rfl,
   (C1_error_handling fsMissingFrame fsSampleRank "rank"
      [("distribution", PVal.s "adversarial")] none [sampleRankRow]).2.2 rfl
      (by decide) (by decide)⟩

/-- C3: for every row with a nonzero universe field, the derived
"percent of ones" column equals num * 100 / universe rounded to an integer
with round-half-to-even (a nearest integer, ties resolved to the even
one). -/
theorem C3_percent_of_ones (filename : String) (r : RankRow)
    (_h : r.«universe» ≠ 0) :
    (transformRow filename r).percent_of_ones
        = roundHalfEven ((r.num * 100 : ℚ) / (r.«universe» : ℚ))
    ∧ |(r.num * 100 : ℚ) / (r.«universe» : ℚ)
        - ((transformRow filename r).percent_of_ones : ℚ)| ≤ 1/2
    ∧ ((r.num * 100 : ℚ) / (r.«universe» : ℚ)
          - ((⌊(r.num * 100 : ℚ) / (r.«universe» : ℚ)⌋ : ℤ) : ℚ) = 1/2 →
        Even (transformRow filename r).percent_of_ones) := by
  have he : (transformRow filename r).percent_of_ones
      = roundHalfEven ((r.num * 100 : ℚ) / (r.«universe» : ℚ)) := by
    cases hs : pyStartsWith filename "select" <;>
      simp [transformRow, methodStep, hs]
  refine ⟨he, ?_, ?_⟩
  · rw [he]; exact roundHalfEven_near _
  · intro ht; rw [he]; exact roundHalfEven_tie_even _ ht

/-- Witness for C3 at a concrete row with universe 100 ≠ 0. -/
theorem C3_percent_of_ones_witness :
    sampleRankRow.«universe» ≠ 0
    ∧ ((transformRow "rank" sampleRankRow).percent_of_ones
        = roundHalfEven ((sampleRankRow.num * 100 : ℚ) / (sampleRankRow.«universe» : ℚ))
      ∧ |(sampleRankRow.num * 100 : ℚ) / (sampleRankRow.«universe» : ℚ)
          - ((transformRow "rank" sampleRankRow).percent_of_ones : ℚ)| ≤ 1/2
      ∧ ((sampleRankRow.num * 100 : ℚ) / (sampleRankRow.«universe» : ℚ)
            - ((⌊(sampleRankRow.num * 100 : ℚ) / (sampleRankRow.«universe» : ℚ)⌋ : ℤ) : ℚ)
              = 1/2 →
          Even (transformRow "rank" sampleRankRow).percent_of_ones)) :=
  ⟨by decide, C3_percent_of_ones "rank" sampleRankRow (by decide)⟩

/-- C4: for every positive n, exp_str produces "10<sup>k</sup>" where the
exponent k = len(str(n)) - 1 equals floor(log10 n), the decimal magnitude
of n. -/
theorem C4_exp_str (n : ℕ) (h : 0 < n) :
    exp_str (n : ℤ) = "10<sup>" ++ pyStr (Nat.log 10 n) ++ "</sup>"
    ∧ (pyStr n).length - 1 = Nat.log 10 n
    ∧ 10 ^ Nat.log 10 n ≤ n ∧ n < 10 ^ (Nat.log 10 n + 1) := by
  have hn : n ≠ 0 := h.ne'
  have hl : (pyStr n).length = Nat.log 10 n + 1 := pyStr_length hn
  refine ⟨?_, ?_, Nat.pow_log_le_self 10 hn, Nat.lt_pow_succ_log_self (by norm_num) n⟩
  · rw [exp_str, pyStrInt_natCast, hl]
    have h1 : ((Nat.log 10 n + 1 : ℕ) : ℤ) - 1 = ((Nat.log 10 n : ℕ) : ℤ) := by
      push_cast; ring
    rw [h1, pyStrInt_natCast]
  · rw [hl]; omega

/-- Witness for C4 at n = 3. -/
theorem C4_exp_str_witness :
    0 < 3
    ∧ (exp_str ((3 : ℕ) : ℤ) = "10<sup>" ++ pyStr (Nat.log 10 3) ++ "</sup>"
      ∧ (pyStr 3).length - 1 = Nat.log 10 3
      ∧ 10 ^ Nat.log 10 3 ≤ 3 ∧ 3 < 10 ^ (Nat.log 10 3 + 1)) :=
  ⟨by decide, C4_exp_str 3 (by decide)⟩

/-- C6: for every successful gen_tab invocation (file present, loaded frame
nonempty, params-filtered frame nonempty), exactly one output file is
written; its name is the base filename followed by one _{value} segment per
params entry in iteration order and the suffix ".html", and its content is
an HTML table. -/
theorem C6_single_output (fs : String → Option (List RankRow)) (filename : String)
    (params : List (String × PVal)) (filt : Option (TRow → Bool))
    (rows : List RankRow)
    (h1 : fs filename = some rows) (h2 : rows ≠ [])
    (h3 : (filterParams rows filename params).1 ≠ []) :
    ∃ content,
      (gen_tab fs filename params filt).writes
          = [(outFilenameSpec filename params, content)]
      ∧ ∃ body,
          content = "<table style=\"text-align: center;\">" ++ body ++ "</table>" := by
  have h4 : rows.isEmpty = false := by
    cases rows with
    | nil => exact absurd rfl h2
    | cons a t => rfl
  have hg : get_data fs filename = (some rows, [], []) := by
    simp [get_data, h1, h4]
  have h5 : (filterParams rows filename params).1.isEmpty = false := by
    cases hfp : (filterParams rows filename params).1 with
    | nil => exact absurd hfp h3
    | cons a t => rfl
  cases filt with
  | none =>
    refine ⟨renderHtmlTable
      ((filterParams rows filename params).1.map (transformRow filename)), ?_, ?_⟩
    · simp [gen_tab, hg, h5, outFilenameSpec, filterParams_name]
    · exact ⟨_, rfl⟩
  | some p =>
    refine ⟨renderHtmlTable
      (((filterParams rows filename params).1.map (transformRow filename)).filter p),
      ?_, ?_⟩
    · simp [gen_tab, hg, h5, outFilenameSpec, filterParams_name]
    · exact ⟨_, rfl⟩

/-- Witness for C6: one matching row and one params entry. -/
theorem C6_single_output_witness :
    ∃ content,
      (gen_tab fsSampleRank "rank" [("distribution", PVal.s "uniform")] none).writes
          = [(outFilenameSpec "rank" [("distribution", PVal.s "uniform")], content)]
      ∧ ∃ body,
          content = "<table style=\"text-align: center;\">" ++ body ++ "</table>" :=
  C6_single_output fsSampleRank "rank" [("distribution", PVal.s "uniform")] none
    [sampleRankRow] rfl (by decide) (by decide)

/-- C7: gen_tab is deterministic: identical input CSV contents and identical
arguments produce identical output effects, byte for byte. -/
theorem C7_deterministic (fs1 fs2 : String → Option (List RankRow))
    (filename : String) (params : List (String × PVal))
    (filt : Option (TRow → Bool)) (h : fs1 filename = fs2 filename) :
    gen_tab fs1 filename params filt = gen_tab fs2 filename params filt := by
  unfold gen_tab get_data
  rw [h]

/-- Witness for C7: two file systems agreeing on the read file. -/
theorem C7_deterministic_witness :
    gen_tab fsSampleRank "rank" [] none = gen_tab fsSampleRank2 "rank" [] none :=
  C7_deterministic fsSampleRank fsSampleRank2 "rank" [] none rfl

/-- C8: for every distinct entropy value present after the params filtering,
the value plotted for that entropy in the per-method series (the last curve
added) is the minimum of the computed overhead over all rows sharing that
entropy value. -/
theorem C8_min_per_entropy (fs : String → Option (List CsfRow)) (filename : String)
    (asPercent : Bool) (labelOpt : Option String) (params : List (String × PVal))
    (st : PlotState) (rows : List CsfRow)
    (h1 : fs filename = some rows) (h2 : rows ≠ []) :
    (add_to_entropy_plot fs filename asPercent labelOpt params st).series.getLast?
        = some ⟨(filterParamsCsf rows (labelOpt.getD filename) params).2, none,
            groupMinBy (filterParamsCsf rows (labelOpt.getD filename) params).1
              (overheadValue asPercent)⟩
    ∧ ∀ e ∈ entropyKeys (filterParamsCsf rows (labelOpt.getD filename) params).1,
        ∃ v,
          (e, v) ∈ groupMinBy (filterParamsCsf rows (labelOpt.getD filename) params).1
              (overheadValue asPercent)
          ∧ (∀ r ∈ (filterParamsCsf rows (labelOpt.getD filename) params).1,
              r.entropy = e → v ≤ overheadValue asPercent r)
          ∧ ∃ r ∈ (filterParamsCsf rows (labelOpt.getD filename) params).1,
              r.entropy = e ∧ v = overheadValue asPercent r := by
  have h4 : rows.isEmpty = false := by
    cases rows with
    | nil => exact absurd rfl h2
    | cons a t => rfl
  have hg : (get_data fs filename).1 = some rows := by
    simp [get_data, h1, h4]
  constructor
  · simp only [add_to_entropy_plot, hg]
    rw [List.getLast?_append_cons]
    rfl
  · intro e he
    exact groupMinBy_spec _ _ e he

/-- Witness for C8 at a one-row file. -/
theorem C8_min_per_entropy_witness :
    (add_to_entropy_plot fsSampleCsf "cfp" false none [] initialConf).series.getLast?
        = some ⟨(filterParamsCsf [sampleCsfRow] ((none : Option String).getD "cfp") []).2,
            none,
            groupMinBy (filterParamsCsf [sampleCsfRow] ((none : Option String).getD "cfp") []).1
              (overheadValue false)⟩
    ∧ ∀ e ∈ entropyKeys
          (filterParamsCsf [sampleCsfRow] ((none : Option String).getD "cfp") []).1,
        ∃ v,
          (e, v) ∈ groupMinBy
              (filterParamsCsf [sampleCsfRow] ((none : Option String).getD "cfp") []).1
              (overheadValue false)
          ∧ (∀ r ∈ (filterParamsCsf [sampleCsfRow] ((none : Option String).getD "cfp") []).1,
              r.entropy = e → v ≤ overheadValue false r)
          ∧ ∃ r ∈ (filterParamsCsf [sampleCsfRow] ((none : Option String).getD "cfp") []).1,
              r.entropy = e ∧ v = overheadValue false r :=
  C8_min_per_entropy fsSampleCsf "cfp" false none [] initialConf [sampleCsfRow]
    rfl (by decide)

/-- C9: the uncompressed-vector baseline value per row is
bit_length(different_values - 1) minus entropy (scaled by 100/entropy when
as_percent), it is minimized per entropy value, and after the baseline is
drawn once the conf flag is cleared, so at most one baseline curve is added
per shared conf dictionary. -/
theorem C9_uncompressed_baseline (fs : String → Option (List CsfRow))
    (filename : String) (asPercent : Bool) (labelOpt : Option String)
    (params : List (String × PVal)) (st : PlotState) (rows : List CsfRow) :
    (∀ r : CsfRow, baselineValue false r
        = (bit_length (r.different_values - 1) : ℚ) - r.entropy)
    ∧ (∀ r : CsfRow, r.entropy ≠ 0 → baselineValue true r
        = 100 * ((bit_length (r.different_values - 1) : ℚ) - r.entropy) / r.entropy)
    ∧ (∀ rows2 : List CsfRow, ∀ e ∈ entropyKeys rows2,
        ∃ v,
          (e, v) ∈ groupMinBy rows2 (baselineValue asPercent)
          ∧ (∀ r ∈ rows2, r.entropy = e → v ≤ baselineValue asPercent r)
          ∧ ∃ r ∈ rows2, r.entropy = e ∧ v = baselineValue asPercent r)
    ∧ (st.uncompressed_plot = true → fs filename = some rows → rows ≠ [] →
        (add_to_entropy_plot fs filename asPercent labelOpt params st).uncompressed_plot
            = false
        ∧ (add_to_entropy_plot fs filename asPercent labelOpt params st).series
            = st.series
              ++ [⟨UNCOMPRESSED_LABEL, some "k--",
                    groupMinBy (filterParamsCsf rows (labelOpt.getD filename) params).1
                      (baselineValue asPercent)⟩,
                  ⟨(filterParamsCsf rows (labelOpt.getD filename) params).2, none,
                    groupMinBy (filterParamsCsf rows (labelOpt.getD filename) params).1
                      (overheadValue asPercent)⟩])
    ∧ ∀ (calls : List EntropyCallArgs) (st0 : PlotState),
        baselineCount (runEntropyCalls fs calls st0)
          ≤ baselineCount st0 + (if st0.uncompressed_plot then 1 else 0) := by
  refine ⟨?_, ?_, ?_, ?_, ?_⟩
  · intro r; simp [baselineValue]
  · intro r _; simp [baselineValue]
  · intro rows2 e he
    exact groupMinBy_spec _ _ e he
  · intro hflag h1 h2
    have h4 : rows.isEmpty = false := by
      cases rows with
      | nil => exact absurd rfl h2
      | cons a t => rfl
    have hg : (get_data fs filename).1 = some rows := by
      simp [get_data, h1, h4]
    constructor <;> simp [add_to_entropy_plot, hg, hflag]
  · intro calls st0
    calc baselineCount (runEntropyCalls fs calls st0)
        ≤ baselineCount (runEntropyCalls fs calls st0)
            + (if (runEntropyCalls fs calls st0).uncompressed_plot then 1 else 0) :=
          Nat.le_add_right _ _
      _ = baselineCount st0 + (if st0.uncompressed_plot then 1 else 0) :=
          runEntropyCalls_baseline_invariant fs calls st0

/-- Witness for C9: one call on a one-row file starting from a fresh conf. -/
theorem C9_uncompressed_baseline_witness :
    baselineValue false sampleCsfRow
        = (bit_length (sampleCsfRow.different_values - 1) : ℚ) - sampleCsfRow.entropy
    ∧ baselineValue true sampleCsfRow
        = 100 * ((bit_length (sampleCsfRow.different_values - 1) : ℚ)
            - sampleCsfRow.entropy) / sampleCsfRow.entropy
    ∧ ((add_to_entropy_plot fsSampleCsf "cfp" false none [] initialConf).uncompressed_plot
          = false
      ∧ (add_to_entropy_plot fsSampleCsf "cfp" false none [] initialConf).series
          = initialConf.series
            ++ [⟨UNCOMPRESSED_LABEL, some "k--",
                  groupMinBy
                    (filterParamsCsf [sampleCsfRow] ((none : Option String).getD "cfp") []).1
                    (baselineValue false)⟩,
                ⟨(filterParamsCsf [sampleCsfRow] ((none : Option String).getD "cfp") []).2,
                  none,
                  groupMinBy
                    (filterParamsCsf [sampleCsfRow] ((none : Option String).getD "cfp") []).1
                    (overheadValue false)⟩])
    ∧ baselineCount (runEntropyCalls fsSampleCsf [sampleEntropyCall] initialConf)
        ≤ baselineCount initialConf + (if initialConf.uncompressed_plot then 1 else 0) :=
  ⟨(C9_uncompressed_baseline fsSampleCsf "cfp" false none [] initialConf [sampleCsfRow]).1
      sampleCsfRow,
   ((C9_uncompressed_baseline fsSampleCsf "cfp" false none [] initialConf
      [sampleCsfRow]).2.1 sampleCsfRow (by norm_num [sampleCsfRow])),
   ((C9_uncompressed_baseline fsSampleCsf "cfp" false none [] initialConf
      [sampleCsfRow]).2.2.2.1 rfl rfl (by decide)),
   ((C9_uncompressed_baseline fsSampleCsf "cfp" false none [] initialConf
      [sampleCsfRow]).2.2.2.2 [sampleEntropyCall] initialConf)⟩

end BenchViz
